import Mathlib

/-!
Shallow embedding of the Collibra Neo4j chatbot's query pipeline
(`src/nl_to_cypher.py`, `src/graph_service.py`, `src/config.py`).

Python strings are modelled as `String`; all character-level operations
(`split`, `strip`, `upper`, `lower`, substring membership) are embedded as
explicit functions over `List Char` mirroring the Python semantics, so that
every definition evaluates inside the kernel.  The Neo4j driver and the Groq
language model are external collaborators; they are modelled as oracle
functions in an `Env` record returning `Except String` values, where
`.error e` stands for a raised exception with message `e`.  A `Calls` record
counts the collaborator invocations performed by each operation.
-/

namespace CollibraPipeline

/-- Python whitespace for `str.strip` / `\s` (ASCII part). -/
def isPyWs (c : Char) : Bool :=
  c = ' ' || c = '\t' || c = '\n' || c = '\r' || c = '\x0b' || c = '\x0c'

/-- `str.strip()` on a character list: drop whitespace from both ends. -/
def trimChars (cs : List Char) : List Char :=
  ((cs.dropWhile isPyWs).reverse.dropWhile isPyWs).reverse

/-- `str.strip()`. -/
def pyStrip (s : String) : String :=
  String.mk (trimChars s.toList)

/-- `str.upper()` (ASCII). -/
def upperChars (cs : List Char) : List Char :=
  cs.map Char.toUpper

/-- `str.lower()` (ASCII). -/
def lowerChars (cs : List Char) : List Char :=
  cs.map Char.toLower

/-- Substring test: `needle in hay` for a nonempty needle (Python `in`). -/
def infixCheck (needle : List Char) : List Char → Bool
  | [] => needle.isEmpty
  | c :: cs => needle.isPrefixOf (c :: cs) || infixCheck needle cs

/-- `needle in hay` on strings. -/
def containsSub (needle hay : String) : Bool :=
  infixCheck needle.toList hay.toList

/-- `needle in hay.upper()` on strings. -/
def containsUpper (needle hay : String) : Bool :=
  infixCheck needle.toList (upperChars hay.toList)

/-- `s.split('\n')` (also used for `s.split('.')`): split on a single
character, keeping empty groups, as Python `str.split(sep)` does. -/
def splitOnChar (sep : Char) : List Char → List (List Char)
  | [] => [[]]
  | c :: cs =>
    match splitOnChar sep cs with
    | [] => [[]]
    | g :: gs => if c = sep then [] :: g :: gs else (c :: g) :: gs

/-- `s.split(sep)` for a multi-character separator, fuelled by the input
length (each step consumes at least one character, so fuel = length is
exact). -/
def splitOnSeqAux (sep : List Char) : Nat → List Char → List (List Char)
  | _, [] => [[]]
  | 0, cs => [cs]
  | fuel + 1, c :: cs =>
    if sep.isPrefixOf (c :: cs) then
      [] :: splitOnSeqAux sep fuel ((c :: cs).drop sep.length)
    else
      match splitOnSeqAux sep fuel cs with
      | [] => [[c]]
      | g :: gs => (c :: g) :: gs

/-- `s.split(sep)` (Python semantics, nonempty separator). -/
def splitOnSeq (sep : List Char) (cs : List Char) : List (List Char) :=
  splitOnSeqAux sep cs.length cs

/-- The Cypher clause keywords of `_clean_cypher_response`. -/
def cypherKeywords : List String :=
  ["MATCH", "RETURN", "CREATE", "MERGE", "DELETE", "SET", "REMOVE",
   "WITH", "UNWIND", "CALL"]

/-- `line.strip().upper().startswith((keywords...))`. -/
def startsKw (l : List Char) : Bool :=
  cypherKeywords.any (fun kw => kw.toList.isPrefixOf (upperChars (trimChars l)))

/-- `line.strip().startswith('```')`. -/
def isFenceLine (l : List Char) : Bool :=
  "```".toList.isPrefixOf (trimChars l)

/-- First phase of `_clean_cypher_response` (lines 99-104): walk the lines
with an `in_code_block` flag, toggling on fence lines, keeping lines inside
a code block and keyword-starting lines outside. -/
def fenceFilter : Bool → List (List Char) → List (List Char)
  | _, [] => []
  | inBlock, l :: ls =>
    if isFenceLine l then fenceFilter (!inBlock) ls
    else if inBlock || (!inBlock && startsKw l) then l :: fenceFilter inBlock ls
    else fenceFilter inBlock ls

/-- Second phase of `_clean_cypher_response` (lines 109-118): a
`found_cypher` flag turns on at the first keyword-starting line; lines are
kept from that point on. -/
def dropBefore : Bool → List (List Char) → List (List Char)
  | _, [] => []
  | found, l :: ls =>
    let found' := found || startsKw l
    if found' then l :: dropBefore found' ls else dropBefore found' ls

/-- `_clean_cypher_response` on a character list. -/
def cleanChars (raw : List Char) : List Char :=
  let s1 := if infixCheck "```".toList raw then
              trimChars (List.intercalate ['\n'] (fenceFilter false (splitOnChar '\n' raw)))
            else raw
  let ls := dropBefore false (splitOnChar '\n' s1)
  if ls.isEmpty then trimChars s1 else trimChars (List.intercalate ['\n'] ls)

/-- `NLToCypherQuery._clean_cypher_response`. -/
def cleanCypherResponse (raw : String) : String :=
  String.mk (cleanChars raw.toList)

/-- A scalar value in a Neo4j result row (the shapes exercised by the
pipeline: strings and integers). -/
inductive Value where
  | vstr : String → Value
  | vint : Int → Value
deriving DecidableEq, Repr

/-- Python `str(value)` as used inside f-strings. -/
def Value.pyStr : Value → String
  | .vstr s => s
  | .vint n => toString n

/-- Escaping used by Python `repr` for quoted strings (backslash and quote). -/
def reprEscape : List Char → List Char
  | [] => []
  | c :: cs =>
    if c = '\\' then '\\' :: '\\' :: reprEscape cs
    else if c = '\'' then '\\' :: '\'' :: reprEscape cs
    else c :: reprEscape cs

/-- Python `repr(value)`. -/
def Value.pyRepr : Value → String
  | .vstr s => String.mk ('\'' :: (reprEscape s.toList ++ ['\'']))
  | .vint n => toString n

/-- A result row: a mapping from output-column name to value, in insertion
order (a Python dict). -/
abbrev Row := List (String × Value)

/-- An ordered result set. -/
abbrev ResultSet := List Row

/-- Python `repr` of a row dict. -/
def pyReprRow (r : Row) : String :=
  "\x7b" ++ String.intercalate ", "
    (r.map fun p => (Value.vstr p.1).pyRepr ++ ": " ++ p.2.pyRepr) ++ "\x7d"

/-- Python `str` of a list of row dicts (`str(query_results[:20])`). -/
def pyReprRows (rows : ResultSet) : String :=
  "[" ++ String.intercalate ", " (rows.map pyReprRow) ++ "]"

/-- `Config.MAX_QUERY_RESULTS` default. -/
def defaultMaxQueryResults : Nat := 100

/-- Collaborator-call counters (schema fetches, language-model invocations,
database queries). -/
structure Calls where
  schema : Nat
  llm : Nat
  db : Nat
deriving DecidableEq, Repr

def Calls.add (a b : Calls) : Calls :=
  ⟨a.schema + b.schema, a.llm + b.llm, a.db + b.db⟩

/-- The external collaborators: `graph_service.get_schema()`, `llm.invoke`
and `graph.query`, each returning `.error e` when the Python call raises,
plus the configured `MAX_QUERY_RESULTS`. -/
structure Env where
  schema : Except String String
  llm : String → Except String String
  db : String → Except String ResultSet
  maxResults : Nat

/-- `CYPHER_GENERATION_TEMPLATE.format(schema=..., question=...)`
(`src/prompts.py` lines 4-30; the doubled braces of the template render as
plain braces). -/
def cypherPromptText (schema question : String) : String :=
  "You are an expert Neo4j Cypher query generator for Collibra data governance metadata.\n\nDatabase Schema:\n"
  ++ schema ++
  "\n\nIMPORTANT RULES:\n1. Generate ONLY a valid Cypher query - no explanations, markdown, or additional text\n2. Use ONLY the node labels, relationship types, and properties from the schema above\n3. Always use case-sensitive exact matches for labels and properties\n4. For text searches, use CONTAINS or regex for partial matching\n5. Always include LIMIT clause to prevent large result sets (max 100)\n6. Use proper Cypher syntax with correct parentheses and brackets\n\nCOMMON PATTERNS FOR COLLIBRA DATA:\n- Assets: Data_Asset, Data_Concept, Database, Table, Column\n- Users: User nodes with properties like Display_Name, Email\n- Relationships: OWNS, TECHNICALLY_STEWARDED_BY, BUSINESS_STEWARDED_BY\n- Properties: name, Display_Name, Status, Asset_Type, Domain, Community\n\nEXAMPLES:\n- \"Who owns X?\" -> MATCH (asset \x7bname: \"X\"\x7d)-[:OWNS]->(owner) RETURN owner.Display_Name\n- \"Show all tables\" -> MATCH (t:Table) RETURN t.name, t.Status LIMIT 100\n- \"Assets in domain Y\" -> MATCH (a) WHERE a.Domain = \"Y\" RETURN a.name, a.Asset_Type LIMIT 100\n\nQuestion: "
  ++ question ++ "\n\nCypher Query:"

/-- `QA_GENERATION_TEMPLATE.format(question=..., query=..., context=...)`
(`src/prompts.py` lines 33-54). -/
def qaPromptText (question queryStr ctx : String) : String :=
  "You are a helpful assistant that explains Collibra data governance information based on database query results.\n\nUser Question: "
  ++ question ++ "\nCypher Query Used: " ++ queryStr ++ "\nQuery Results: " ++ ctx ++
  "\n\nINSTRUCTIONS:\n1. Provide a clear, concise answer based on the query results\n2. If results are empty, explain that no matching data was found\n3. Format lists and tables in a readable way\n4. Include relevant details like names, statuses, domains, owners\n5. Use bullet points or numbered lists for multiple items\n6. Be specific about the data governance context (assets, stewardship, etc.)\n7. If the query returned an error, explain what might have gone wrong\n\nFORMATTING GUIDELINES:\n- Use **bold** for important names and values\n- Use bullet points for lists\n- Include counts when showing multiple items\n- Mention data governance concepts (stewardship, ownership, domains)\n\nAnswer:"

/-- `GraphService.execute_cypher` lines 73-75: append a LIMIT clause when the
query has a RETURN clause and no LIMIT clause. -/
def addLimit (maxResults : Nat) (q : String) : String :=
  if !(containsUpper "LIMIT" q) && containsUpper "RETURN" q then
    q ++ " LIMIT " ++ toString maxResults
  else q

/-- Run one `graph.query` call, counting it; a raised exception becomes
`none` (`execute_cypher`'s `except` branch). -/
def dbRun (env : Env) (s : String) : Option ResultSet × Calls :=
  match env.db s with
  | .ok r => (some r, ⟨0, 0, 1⟩)
  | .error _ => (none, ⟨0, 0, 1⟩)

/-- `GraphService.execute_cypher`: empty/whitespace queries short-circuit to
`None` without a database call; otherwise the (possibly LIMIT-extended)
query is executed, with exceptions converted to `None`. -/
def executeCypher (env : Env) (q : String) : Option ResultSet × Calls :=
  if pyStrip q = "" then (none, ⟨0, 0, 0⟩)
  else dbRun env (addLimit env.maxResults q)

/-- `GraphService.validate_cypher_syntax` via `NLToCypherQuery._validate_cypher`:
run `EXPLAIN <query>`; success is valid, an exception is reported as invalid
with the error text. -/
structure VRes where
  valid : Bool
  message : String
deriving DecidableEq, Repr

def validateCypher (env : Env) (q : String) : VRes × Calls :=
  match env.db ("EXPLAIN " ++ q) with
  | .ok _ => (⟨true, "Query syntax is valid"⟩, ⟨0, 0, 1⟩)
  | .error e => (⟨false, e⟩, ⟨0, 0, 1⟩)

/-- Case-insensitive match of the regex `LIMIT\s+\d+` at the head of the
character list, returning the remainder after the match. -/
def matchLimitAt : List Char → Option (List Char)
  | c1 :: c2 :: c3 :: c4 :: c5 :: rest =>
    if c1.toLower = 'l' && c2.toLower = 'i' && c3.toLower = 'm'
        && c4.toLower = 'i' && c5.toLower = 't' then
      match rest with
      | r :: rest2 =>
        if isPyWs r then
          match rest2.dropWhile isPyWs with
          | d :: rest3 => if d.isDigit then some (rest3.dropWhile Char.isDigit) else none
          | [] => none
        else none
      | [] => none
    else none
  | _ => none

/-- `re.sub(r'LIMIT\s+\d+', repl, s, flags=re.IGNORECASE)`: replace every
non-overlapping occurrence, scanning left to right.  Fuelled by the input
length; each step consumes at least one character, so fuel = length is
exact. -/
def reSubLimitAux (repl : List Char) : Nat → List Char → List Char
  | 0, cs => cs
  | _ + 1, [] => []
  | fuel + 1, c :: cs =>
    match matchLimitAt (c :: cs) with
    | some rest => repl ++ reSubLimitAux repl fuel rest
    | none => c :: reSubLimitAux repl fuel cs

def reSubLimit (repl : String) (s : String) : String :=
  String.mk (reSubLimitAux repl.toList s.toList.length s.toList)

/-- `execute_cypher_paginated` lines 109-114: append `SKIP .. LIMIT ..` when
the query has no LIMIT, otherwise substitute the existing `LIMIT <n>`. -/
def applyPagination (q : String) (offset ps : Int) : String :=
  if !(containsUpper "LIMIT" q) then
    q ++ " SKIP " ++ toString offset ++ " LIMIT " ++ toString ps
  else
    reSubLimit ("SKIP " ++ toString offset ++ " LIMIT " ++ toString ps) q

/-- `execute_cypher_paginated` line 117: the count query
`f"MATCH {q.split('RETURN')[0].split('MATCH')[1]} RETURN count(*) as total"`;
`none` models the uncaught IndexError when the query contains no `MATCH`. -/
def countQueryOf (q : String) : Option String :=
  let part0 := (splitOnSeq "RETURN".toList q.toList).headD []
  match splitOnSeq "MATCH".toList part0 with
  | _ :: inner :: _ =>
    some (String.mk ("MATCH ".toList ++ inner ++ " RETURN count(*) as total".toList))
  | _ => none

/-- The `{results, page, page_size, total_count, total_pages}` record. -/
structure PageResult where
  results : ResultSet
  page : Int
  pageSize : Int
  totalCount : Int
  totalPages : Int
deriving DecidableEq, Repr

/-- Assemble the pagination record; `total_pages` is Python floor division
`(total_count + page_size - 1) // page_size`, and `page_size = 0` models the
uncaught ZeroDivisionError. -/
def mkPage (results : ResultSet) (page ps total : Int) : Option PageResult :=
  if ps = 0 then none
  else some ⟨results, page, ps, total, Int.fdiv (total + ps - 1) ps⟩

/-- `GraphService.execute_cypher_paginated`.  `none` models an uncaught
exception (count-query construction, the paginated `graph.query` call, a
non-integer `total`, or a zero page size); the bare `except` around the
count query maps any of its failures to `len(results)`. -/
def executeCypherPaginated (env : Env) (q : String) (ps page : Int) :
    Option PageResult :=
  let offset := (page - 1) * ps
  let pq := applyPagination q offset ps
  match countQueryOf q with
  | none => none
  | some cquery =>
    match env.db pq with
    | .error _ => none
    | .ok results =>
      let fallback : Int := results.length
      match env.db cquery with
      | .error _ => mkPage results page ps fallback
      | .ok [] => mkPage results page ps fallback
      | .ok (r0 :: _) =>
        match r0.lookup "total" with
        | none => mkPage results page ps fallback
        | some (.vint n) => mkPage results page ps n
        | some (.vstr _) => none

/-- `NLToCypherQuery._generate_cypher`: fetch the schema, invoke the model,
strip and sanitize; either collaborator raising yields `None`. -/
def generateCypher (env : Env) (question : String) : Option String × Calls :=
  match env.schema with
  | .error _ => (none, ⟨1, 0, 0⟩)
  | .ok sch =>
    match env.llm (cypherPromptText sch question) with
    | .error _ => (none, ⟨1, 1, 0⟩)
    | .ok resp => (some (cleanCypherResponse (pyStrip resp)), ⟨1, 1, 0⟩)

/-- `NLToCypherQuery._execute_query`: `execute_cypher` with `None` (or an
exception) degraded to the empty result set. -/
def executeQueryStep (env : Env) (cq : String) : ResultSet × Calls :=
  match executeCypher env cq with
  | (some r, c) => (r, c)
  | (none, c) => ([], c)

/-- The fixed empty-result message of `_generate_answer`. -/
def noDataMsg : String :=
  "No data found matching your query. The database might not contain the requested information, or the query might need to be refined."

/-- `key.split('.')[-1] if '.' in key else key`. -/
def fieldNameOf (k : String) : String :=
  if containsSub "." k then String.mk ((splitOnChar '.' k.toList).getLastD [])
  else k

/-- `'count' in str(k).lower()`. -/
def countIn (k : String) : Bool :=
  infixCheck "count".toList (lowerChars k.toList)

/-- The first `(key, value)` pair whose key contains `count`
(case-insensitive), as `next(k for k in keys if 'count' in str(k).lower())`
followed by the dict lookup. -/
def findCountPair (row : Row) : Option (String × Value) :=
  row.find? (fun p => countIn p.1)

/-- The complex-results branch of `_generate_answer`: one model call over
the first 20 rows, with a model exception degraded to the templated
row-count message. -/
def llmAnswer (env : Env) (question cq : String) (results : ResultSet) :
    String × Calls :=
  match env.llm (qaPromptText question cq (pyReprRows (results.take 20))) with
  | .ok a => (pyStrip a, ⟨0, 1, 0⟩)
  | .error e =>
    ("Found " ++ toString results.length ++
     " results, but encountered an error formatting the response: " ++ e, ⟨0, 1, 0⟩)

/-- `NLToCypherQuery._generate_answer`: empty results, single-field row,
count row, then the language-model fallback, in that order. -/
def generateAnswer (env : Env) (question cq : String) (results : ResultSet) :
    String × Calls :=
  match results with
  | [] => (noDataMsg, ⟨0, 0, 0⟩)
  | [row] =>
    match row with
    | [(k, v)] =>
      ("The **" ++ fieldNameOf k ++ "** is: **" ++ v.pyStr ++ "**", ⟨0, 0, 0⟩)
    | _ =>
      match findCountPair row with
      | some (_, v) =>
        ("Found **" ++ v.pyStr ++ "** items matching your query.", ⟨0, 0, 0⟩)
      | none => llmAnswer env question cq results
  | _ => llmAnswer env question cq results

/-- The combined response object: a Python dict with optional keys. -/
structure Outcome where
  question : Option String := none
  cypherQuery : Option String := none
  queryResults : Option ResultSet := none
  answer : Option String := none
  validation : Option VRes := none
  error : Option String := none
deriving DecidableEq, Repr

/-- The query cache `_query_cache`: an insertion-ordered dict from trimmed
question text to outcome. -/
abbrev Cache := List (String × Outcome)

/-- Python dict assignment: overwrite an existing key in place, otherwise
append. -/
def cacheInsert (k : String) (v : Outcome) : Cache → Cache
  | [] => [(k, v)]
  | (k', v') :: rest =>
    if k' = k then (k, v) :: rest else (k', v') :: cacheInsert k v rest

/-- `NLToCypherQuery.clear_cache`. -/
def clearCache (_ : Cache) : Cache := []

/-- `NLToCypherQuery.query`: the orchestrator.  Returns the outcome, the
cache after the call, and the collaborator-call counts.  All collaborator
exceptions are caught inside the steps themselves, so the orchestrator's
final catch-all (`except` at line 66) never fires; its conversion of an
uncaught exception `e` into
`{error: "Error processing query: " + e, question}` is the dead last-resort
branch of the source. -/
def query (env : Env) (cache : Cache) (useCache : Bool) (question : String) :
    Outcome × Cache × Calls :=
  if pyStrip question = "" then
    ({ error := some "Empty question provided" }, cache, ⟨0, 0, 0⟩)
  else
    let q := pyStrip question
    match useCache, cache.lookup q with
    | true, some o => (o, cache, ⟨0, 0, 0⟩)
    | _, _ =>
      let g := generateCypher env q
      match g.1 with
      | none => ({ error := some "Failed to generate Cypher query" }, cache, g.2)
      | some cq =>
        if cq = "" then
          ({ error := some "Failed to generate Cypher query" }, cache, g.2)
        else
          let v := validateCypher env cq
          let r := executeQueryStep env cq
          let a := generateAnswer env q cq r.1
          let o : Outcome :=
            { question := some q, cypherQuery := some cq,
              queryResults := some r.1, answer := some a.1,
              validation := some v.1, error := none }
          (o, if useCache then cacheInsert q o cache else cache,
           ((g.2.add v.2).add r.2).add a.2)

/-- The spec's reading of fenced-block sanitization: retain only lines
inside the fences that begin with a Cypher clause keyword (to be compared
with `fenceFilter`, which keeps every in-fence line and keyword-starting
lines outside the fences). -/
def specFenceFilter : Bool → List (List Char) → List (List Char)
  | _, [] => []
  | inBlock, l :: ls =>
    if isFenceLine l then specFenceFilter (!inBlock) ls
    else if inBlock && startsKw l then l :: specFenceFilter inBlock ls
    else specFenceFilter inBlock ls

/-- Fenced-input sanitization as the spec words it. -/
def specFencedClean (raw : String) : String :=
  String.mk (trimChars (List.intercalate ['\n']
    (specFenceFilter false (splitOnChar '\n' raw.toList))))

/-- A well-formed query outcome: an error outcome, or a complete success
record. -/
def WellFormedOutcome (o : Outcome) : Prop :=
  o.error ≠ none ∨
    (o.question ≠ none ∧ o.cypherQuery ≠ none ∧ o.queryResults ≠ none ∧
     o.answer ≠ none ∧ o.validation ≠ none)

/-- The invariant claimed for error-free outcomes: non-empty generated
query, an answer, and a present (possibly empty) result sequence. -/
def SuccessShape (o : Outcome) : Prop :=
  o.error = none →
    (∃ cq, o.cypherQuery = some cq ∧ cq ≠ "") ∧
    (∃ a, o.answer = some a) ∧ (∃ rs, o.queryResults = some rs)

/-- Caches whose stored outcomes are all error-free. -/
def CacheErrorFree (cache : Cache) : Prop :=
  ∀ k o, cache.lookup k = some o → o.error = none

/-- An environment in which every collaborator raises. -/
def envDown : Env :=
  { schema := .error "connection down", llm := fun _ => .error "connection down",
    db := fun _ => .error "connection down", maxResults := 100 }

/-- A healthy environment: schema available, the model emits a fixed query,
the database returns no rows. -/
def envOk : Env :=
  { schema := .ok "Node (n)", llm := fun _ => .ok "MATCH (n) RETURN n",
    db := fun _ => .ok [], maxResults := 100 }

/-- An environment answering only the LIMIT-extended query of the C4
scenario. -/
def env4 : Env :=
  { schema := .ok "S", llm := fun _ => .ok "",
    db := fun s =>
      if s = "MATCH (n) RETURN n LIMIT 100" then .ok [[("n", Value.vint 7)]]
      else .error "unexpected query",
    maxResults := 100 }

/-- An environment for the pagination scenario: 25 matching rows in total,
of which page 3 (page size 10) holds rows 21-25. -/
def envPage : Env :=
  { schema := .ok "S", llm := fun _ => .ok "",
    db := fun s =>
      if s = "MATCH (n) RETURN n SKIP 20 LIMIT 10" then
        .ok [[("n", Value.vint 21)], [("n", Value.vint 22)], [("n", Value.vint 23)],
             [("n", Value.vint 24)], [("n", Value.vint 25)]]
      else if s = "MATCH  (n)  RETURN count(*) as total" then
        .ok [[("total", Value.vint 25)]]
      else .error "unexpected query",
    maxResults := 100 }

/-- The pagination record produced in the `envPage` scenario. -/
def pageRes : PageResult :=
  { results := [[("n", Value.vint 21)], [("n", Value.vint 22)], [("n", Value.vint 23)],
                [("n", Value.vint 24)], [("n", Value.vint 25)]],
    page := 3, pageSize := 10, totalCount := 25, totalPages := 3 }

/-- A cached outcome used by the cache-hit scenario. -/
def oHit : Outcome :=
  { question := some "hi", cypherQuery := some "MATCH (n) RETURN n",
    queryResults := some [], answer := some noDataMsg,
    validation := some ⟨true, "Query syntax is valid"⟩ }

/-! Helper lemmas. -/

theorem dropBefore_true (ls : List (List Char)) : dropBefore true ls = ls := by
  induction ls with
  | nil => rfl
  | cons l ls ih => simp [dropBefore, ih]

theorem dropBefore_false_eq (ls : List (List Char)) :
    dropBefore false ls = ls.dropWhile (fun l => !startsKw l) := by
  induction ls with
  | nil => rfl
  | cons l ls ih =>
    by_cases h : startsKw l = true
    · simp [dropBefore, h, List.dropWhile, dropBefore_true]
    · have h' : startsKw l = false := by simpa using h
      simp [dropBefore, h', List.dropWhile, ih]

theorem fenceFilter_inBlock (ls : List (List Char))
    (h : ∀ l ∈ ls, isFenceLine l = false) :
    fenceFilter true (ls ++ ["```".toList]) = ls := by
  induction ls with
  | nil => decide
  | cons l ls ih =>
    have hl : isFenceLine l = false := h l (List.mem_cons_self l ls)
    have ih' := ih (fun x hx => h x (List.mem_cons_of_mem l hx))
    simp [List.cons_append, fenceFilter, hl]
    exact ih'

theorem splitOnChar_no_sep (sep : Char) (cs : List Char)
    (h : infixCheck [sep] cs = false) : splitOnChar sep cs = [cs] := by
  induction cs with
  | nil => rfl
  | cons c cs ih =>
    simp only [infixCheck, List.isPrefixOf, Bool.or_eq_false_iff,
      Bool.and_eq_false_iff] at h
    obtain ⟨h1, h2⟩ := h
    have hc : ¬(c = sep) := by
      intro hcs
      rcases h1 with h1 | h1
      · rw [hcs] at h1; simp at h1
      · simp [List.isPrefixOf] at h1
    simp [splitOnChar, ih h2, hc]

theorem mk_toList (s : String) : String.mk s.toList = s := rfl

theorem fieldNameOf_eq_lastSeg (k : String) :
    fieldNameOf k = String.mk ((splitOnChar '.' k.toList).getLastD []) := by
  by_cases h : containsSub "." k = true
  · simp [fieldNameOf, h]
  · have h0 : containsSub "." k = false := by simpa using h
    have h' : infixCheck ['.'] k.toList = false := h0
    rw [fieldNameOf, if_neg (by simp [h0]), splitOnChar_no_sep '.' _ h']
    simp [mk_toList]

theorem cacheInsert_lookup (k : String) (v : Outcome) (c : Cache) (k' : String) :
    (cacheInsert k v c).lookup k' = if k' = k then some v else c.lookup k' := by
  induction c with
  | nil =>
    by_cases h : k' = k
    · simp [cacheInsert, List.lookup, h]
    · have hb : (k' == k) = false := beq_eq_false_iff_ne.mpr h
      simp [cacheInsert, List.lookup, hb, h]
  | cons p rest ih =>
    obtain ⟨k0, v0⟩ := p
    by_cases h0 : k0 = k
    · subst h0
      by_cases h1 : k' = k0
      · have hb : (k' == k0) = true := beq_iff_eq.mpr h1
        simp [cacheInsert, List.lookup, hb, h1]
      · have hb : (k' == k0) = false := beq_eq_false_iff_ne.mpr h1
        simp [cacheInsert, List.lookup, hb, h1]
    · by_cases h1 : k' = k0
      · subst h1
        have hkk : ¬(k' = k) := fun hh => h0 hh
        simp [cacheInsert, h0, List.lookup, hkk]
      · have hb : (k' == k0) = false := beq_eq_false_iff_ne.mpr h1
        simp [cacheInsert, h0, List.lookup, hb, ih]

theorem generateCypher_schema_calls (env : Env) (q : String) :
    1 ≤ (generateCypher env q).2.schema := by
  rcases hs : env.schema with e | s
  · simp [generateCypher, hs]
  · rcases hl : env.llm (cypherPromptText s q) with e | r <;>
      simp [generateCypher, hs, hl]

theorem generateCypher_llm_calls (env : Env) (q : String) (s : String)
    (h : env.schema = .ok s) : 1 ≤ (generateCypher env q).2.llm := by
  rcases hl : env.llm (cypherPromptText s q) with e | r <;>
    simp [generateCypher, h, hl]

theorem dropWhile_all {p : Char → Bool} (cs : List Char)
    (h : ∀ x ∈ cs.dropWhile p, p x = true) : ∀ x ∈ cs, p x = true := by
  induction cs with
  | nil => intro x hx; cases hx
  | cons c cs ih =>
    cases hc : p c with
    | true =>
      intro x hx
      rcases List.mem_cons.mp hx with rfl | hx'
      · exact hc
      · exact ih (by simpa [List.dropWhile, hc] using h) x hx'
    | false =>
      intro x hx
      exact h x (by simpa [List.dropWhile, hc] using hx)

theorem infixCheck_head_mem {a : Char} {n : List Char} :
    ∀ h : List Char, infixCheck (a :: n) h = true → a ∈ h := by
  intro h
  induction h with
  | nil => intro hh; simp [infixCheck] at hh
  | cons c cs ih =>
    intro hh
    simp only [infixCheck] at hh
    rcases Bool.or_eq_true_iff.mp hh with hp | hi
    · simp only [List.isPrefixOf] at hp
      have hac : (a == c) = true := (Bool.and_eq_true_iff.mp hp).1
      rw [eq_of_beq hac]
      exact List.mem_cons_self c cs
    · exact List.mem_cons_of_mem c (ih hi)

theorem pyWs_toUpper {c : Char} (h : isPyWs c = true) : Char.toUpper c = c := by
  have h' : c = ' ' ∨ c = '\t' ∨ c = '\n' ∨ c = '\r' ∨ c = '\x0b' ∨ c = '\x0c' := by
    simpa [isPyWs, or_assoc] using h
  rcases h' with rfl | rfl | rfl | rfl | rfl | rfl <;> decide

/-- A query whose upper-cased text contains `RETURN` cannot be
whitespace-only. -/
theorem returnNonblank (q : String) (hret : containsUpper "RETURN" q = true) :
    pyStrip q ≠ "" := by
  intro hblank
  have h0 : trimChars q.toList = [] := congrArg String.data hblank
  have h1 : (q.toList.dropWhile isPyWs).reverse.dropWhile isPyWs = [] := by
    have hrev := congrArg List.reverse h0
    simpa [trimChars] using hrev
  have h2 : ∀ x ∈ q.toList.dropWhile isPyWs, isPyWs x = true := by
    intro x hx
    exact List.dropWhile_eq_nil_iff.mp h1 x (List.mem_reverse.mpr hx)
  have hall : ∀ x ∈ q.toList, isPyWs x = true := dropWhile_all q.toList h2
  have hret' : infixCheck ('R' :: "ETURN".toList) (upperChars q.toList) = true := hret
  have hR : ('R' : Char) ∈ upperChars q.toList := infixCheck_head_mem _ hret'
  obtain ⟨c, hc, hcu⟩ := List.mem_map.mp hR
  have hws := hall c hc
  rw [pyWs_toUpper hws] at hcu
  subst hcu
  exact absurd hws (by decide)

theorem fdiv_ceil (a b : Int) (hb : 0 < b) :
    Int.fdiv (a + b - 1) b = ⌈(a : ℚ) / (b : ℚ)⌉ := by
  have h1 := Int.ediv_add_emod (a + b - 1) b
  have h2 := Int.emod_nonneg (a + b - 1) (ne_of_gt hb)
  have h3 := Int.emod_lt_of_pos (a + b - 1) hb
  set m : Int := (a + b - 1) / b with hm
  have ha1 : a ≤ b * m := by omega
  have ha2 : b * (m - 1) < a := by
    have hd : b * (m - 1) = b * m - b := by ring
    omega
  have ha1' : a ≤ m * b := by rw [mul_comm]; exact ha1
  have ha2' : (m - 1) * b < a := by rw [mul_comm]; exact ha2
  have hbQ : (0 : ℚ) < (b : ℚ) := by exact_mod_cast hb
  rw [Int.fdiv_eq_ediv _ (le_of_lt hb), ← hm]
  symm
  rw [Int.ceil_eq_iff]
  refine ⟨?_, ?_⟩
  · rw [show ((m : ℚ) - 1) = (((m - 1 : Int) : ℚ)) by push_cast; ring,
      lt_div_iff₀ hbQ]
    exact_mod_cast ha2'
  · rw [div_le_iff₀ hbQ]
    exact_mod_cast ha1'

/-! Claim theorems. -/

/-- C9: for a result set of exactly one row with exactly one field, the
synthesized answer is `The **<field>** is: **<value>**`, where the field
name is the last dot-separated segment of the column name; in particular
`{"a.Display_Name": "Jane Doe"}` yields
`The **Display_Name** is: **Jane Doe**`. -/
theorem c9_single_field_answer (env : Env) (question cq k : String) (v : Value) :
    generateAnswer env question cq [[(k, v)]] =
      ("The **" ++ String.mk ((splitOnChar '.' k.toList).getLastD []) ++
        "** is: **" ++ v.pyStr ++ "**", ⟨0, 0, 0⟩) ∧
    generateAnswer env question cq [[("a.Display_Name", Value.vstr "Jane Doe")]] =
      ("The **Display_Name** is: **Jane Doe**", ⟨0, 0, 0⟩) := by
  constructor
  · rw [show generateAnswer env question cq [[(k, v)]] =
        ("The **" ++ fieldNameOf k ++ "** is: **" ++ v.pyStr ++ "**",
          (⟨0, 0, 0⟩ : Calls)) from rfl,
      fieldNameOf_eq_lastSeg]
  · rfl

/-- C1 counterexample: the claim predicts
`Found **42** items matching your query.` for the single row
`{"total_count": 42}`, but the single-field branch fires first and the
code returns `The **total_count** is: **42**`. -/
theorem c1_single_count_row_counterexample :
    generateAnswer envDown "How many assets are there?"
      "MATCH (n) RETURN count(n) as total_count"
      [[("total_count", Value.vint 42)]] =
      ("The **total_count** is: **42**", ⟨0, 0, 0⟩) ∧
    ("The **total_count** is: **42**" : String) ≠
      "Found **42** items matching your query." :=
  ⟨rfl, by decide⟩

/-- C1 amended: the count branch answers
`Found **<value>** items matching your query.` only for a single row with
at least two fields, taking the value of the first column whose name
contains `count` (case-insensitive); a single-field row is captured by the
single-field branch instead. -/
theorem c1_count_branch_multi_field (env : Env) (question cq : String)
    (row : Row) (k : String) (v : Value)
    (hlen : row.length ≠ 1)
    (hfind : findCountPair row = some (k, v)) :
    generateAnswer env question cq [row] =
      ("Found **" ++ v.pyStr ++ "** items matching your query.", ⟨0, 0, 0⟩) := by
  rcases row with _ | ⟨p1, row1⟩
  · simp [findCountPair] at hfind
  · rcases row1 with _ | ⟨p2, row2⟩
    · simp at hlen
    · have hred : generateAnswer env question cq [p1 :: p2 :: row2] =
        (match findCountPair (p1 :: p2 :: row2) with
         | some (_, v) =>
           ("Found **" ++ v.pyStr ++ "** items matching your query.",
             (⟨0, 0, 0⟩ : Calls))
         | none => llmAnswer env question cq [p1 :: p2 :: row2]) := rfl
      rw [hred, hfind]

theorem c1_count_branch_multi_field_witness :
    generateAnswer envDown "How many?" "MATCH (a) RETURN a.name, count(a) as item_count"
      [[("name", Value.vstr "x"), ("item_count", Value.vint 25)]] =
      ("Found **25** items matching your query.", ⟨0, 0, 0⟩) :=
  c1_count_branch_multi_field envDown "How many?"
    "MATCH (a) RETURN a.name, count(a) as item_count"
    [("name", Value.vstr "x"), ("item_count", Value.vint 25)]
    "item_count" (Value.vint 25) (by decide) (by decide)

/-- C2 counterexample: on a fenced block whose middle line starts with
`WHERE`, the code keeps that line (it keeps every in-fence line), while the
claim's reading (keep only keyword-starting fenced lines) drops it. -/
theorem c2_fenced_keyword_only_counterexample :
    cleanCypherResponse "```\nMATCH (n)\nWHERE n.x = 1\nRETURN n\n```" =
      "MATCH (n)\nWHERE n.x = 1\nRETURN n" ∧
    specFencedClean "```\nMATCH (n)\nWHERE n.x = 1\nRETURN n\n```" =
      "MATCH (n)\nRETURN n" ∧
    cleanCypherResponse "```\nMATCH (n)\nWHERE n.x = 1\nRETURN n\n```" ≠
      specFencedClean "```\nMATCH (n)\nWHERE n.x = 1\nRETURN n\n```" :=
  ⟨rfl, rfl, by decide⟩

/-- C2 amended: when fenced code blocks are present, the first sanitization
phase keeps every line inside the fences (keyword-starting or not); the
claim's concrete example still holds:
`"```\nMATCH (n) RETURN n\n```"` sanitizes to `"MATCH (n) RETURN n"`. -/
theorem c2_fenced_lines_kept_amended :
    (∀ ls : List (List Char), (∀ l ∈ ls, isFenceLine l = false) →
      fenceFilter false ("```".toList :: (ls ++ ["```".toList])) = ls) ∧
    cleanCypherResponse "```\nMATCH (n) RETURN n\n```" = "MATCH (n) RETURN n" := by
  constructor
  · intro ls h
    have hf : isFenceLine "```".toList = true := by decide
    simp only [fenceFilter, hf, if_true, Bool.not_false]
    exact fenceFilter_inBlock ls h
  · rfl

theorem c2_fenced_lines_kept_amended_witness :
    fenceFilter false
      ("```".toList :: (["WHERE n.x = 1".toList] ++ ["```".toList])) =
      ["WHERE n.x = 1".toList] :=
  c2_fenced_lines_kept_amended.1 ["WHERE n.x = 1".toList] (by decide)

/-- C7: without fenced blocks, sanitization drops the lines before the
first keyword-starting line and keeps the rest; when no line starts with a
clause keyword the trimmed raw text is returned unchanged. -/
theorem c7_no_fence_sanitization (raw : String)
    (hnf : containsSub "```" raw = false) :
    ((splitOnChar '\n' raw.toList).any startsKw = true →
      cleanCypherResponse raw =
        String.mk (trimChars (List.intercalate ['\n']
          ((splitOnChar '\n' raw.toList).dropWhile (fun l => !startsKw l))))) ∧
    ((splitOnChar '\n' raw.toList).any startsKw = false →
      cleanCypherResponse raw = pyStrip raw) := by
  have hinf : infixCheck "```".toList raw.toList = false := hnf
  constructor
  · intro hany
    have hne : ((splitOnChar '\n' raw.toList).dropWhile
        (fun l => !startsKw l)).isEmpty = false := by
      cases hE : ((splitOnChar '\n' raw.toList).dropWhile
          (fun l => !startsKw l)).isEmpty with
      | false => rfl
      | true =>
        exfalso
        have hnil := List.isEmpty_iff.mp hE
        have hall := List.dropWhile_eq_nil_iff.mp hnil
        obtain ⟨x, hx, hkx⟩ := List.any_eq_true.mp hany
        have := hall x hx
        simp [hkx] at this
    simp only [cleanCypherResponse, cleanChars, hinf, Bool.false_eq_true,
      if_false, dropBefore_false_eq, hne]
  · intro hany
    have hnil : (splitOnChar '\n' raw.toList).dropWhile
        (fun l => !startsKw l) = [] := by
      rw [List.dropWhile_eq_nil_iff]
      intro x hx
      have : startsKw x = false := by
        cases hkx : startsKw x with
        | false => rfl
        | true =>
          exfalso
          have : (splitOnChar '\n' raw.toList).any startsKw = true :=
            List.any_eq_true.mpr ⟨x, hx, hkx⟩
          rw [this] at hany
          exact absurd hany (by decide)
      simp [this]
    simp only [cleanCypherResponse, cleanChars, hinf, Bool.false_eq_true,
      if_false, dropBefore_false_eq, hnil, List.isEmpty_nil, if_true]
    rfl

theorem c7_no_fence_sanitization_witness :
    cleanCypherResponse "Sure, here:\nMATCH (n) RETURN n LIMIT 5" =
      "MATCH (n) RETURN n LIMIT 5" := by
  have h := (c7_no_fence_sanitization "Sure, here:\nMATCH (n) RETURN n LIMIT 5"
    (by decide)).1 (by decide)
  rw [h]
  rfl

/-- C4: a query with a RETURN clause and no LIMIT clause executes with
` LIMIT <configured maximum>` appended. -/
theorem c4_limit_appended (env : Env) (q : String)
    (hret : containsUpper "RETURN" q = true)
    (hlim : containsUpper "LIMIT" q = false) :
    addLimit env.maxResults q = q ++ " LIMIT " ++ toString env.maxResults ∧
    executeCypher env q = dbRun env (q ++ " LIMIT " ++ toString env.maxResults) := by
  have hne : pyStrip q ≠ "" := returnNonblank q hret
  have h1 : addLimit env.maxResults q = q ++ " LIMIT " ++ toString env.maxResults := by
    simp [addLimit, hret, hlim]
  refine ⟨h1, ?_⟩
  rw [executeCypher, if_neg hne, h1]

theorem c4_limit_appended_witness :
    executeCypher env4 "MATCH (n) RETURN n" =
      dbRun env4 ("MATCH (n) RETURN n" ++ " LIMIT " ++ toString env4.maxResults) ∧
    dbRun env4 ("MATCH (n) RETURN n" ++ " LIMIT " ++ toString env4.maxResults) =
      (some [[("n", Value.vint 7)]], ⟨0, 0, 1⟩) :=
  ⟨(c4_limit_appended env4 "MATCH (n) RETURN n" (by decide) (by decide)).2,
   by decide⟩

/-- C3: pagination rewrites the query with `SKIP (page-1)*page_size LIMIT
page_size` (replacing a pre-existing `LIMIT <n>`), returns `total_pages =
ceil(total_count / page_size)`, and falls back to the returned page length
when the count query fails. -/
theorem c3_execute_paginated (env : Env) (q : String) (ps page : Int)
    (res : PageResult)
    (h : executeCypherPaginated env q ps page = some res)
    (hps : 0 < ps) :
    res.page = page ∧ res.pageSize = ps ∧
    res.totalPages = ⌈(res.totalCount : ℚ) / (ps : ℚ)⌉ ∧
    (containsUpper "LIMIT" q = false →
      applyPagination q ((page - 1) * ps) ps =
        q ++ " SKIP " ++ toString ((page - 1) * ps) ++ " LIMIT " ++ toString ps) ∧
    applyPagination "MATCH (n) RETURN n LIMIT 50" 20 10 =
      "MATCH (n) RETURN n SKIP 20 LIMIT 10" ∧
    (∀ cq e, countQueryOf q = some cq → env.db cq = Except.error e →
      res.totalCount = res.results.length) := by
  have hps0 : ¬(ps = 0) := ne_of_gt hps
  have happ : containsUpper "LIMIT" q = false →
      applyPagination q ((page - 1) * ps) ps =
        q ++ " SKIP " ++ toString ((page - 1) * ps) ++ " LIMIT " ++ toString ps := by
    intro hnl
    simp [applyPagination, hnl]
  have hconc : applyPagination "MATCH (n) RETURN n LIMIT 50" 20 10 =
      "MATCH (n) RETURN n SKIP 20 LIMIT 10" := by decide
  simp only [executeCypherPaginated] at h
  split at h
  · simp at h
  · rename_i cquery hcq2
    split at h
    · simp at h
    · rename_i results hdb2
      split at h
      · unfold mkPage at h
        rw [if_neg hps0] at h
        obtain rfl : _ = res := Option.some_inj.mp h
        exact ⟨rfl, rfl, fdiv_ceil _ _ hps, happ, hconc, fun _ _ _ _ => rfl⟩
      · unfold mkPage at h
        rw [if_neg hps0] at h
        obtain rfl : _ = res := Option.some_inj.mp h
        exact ⟨rfl, rfl, fdiv_ceil _ _ hps, happ, hconc, fun _ _ _ _ => rfl⟩
      · rename_i r0 tail hdc2
        split at h
        · unfold mkPage at h
          rw [if_neg hps0] at h
          obtain rfl : _ = res := Option.some_inj.mp h
          exact ⟨rfl, rfl, fdiv_ceil _ _ hps, happ, hconc, fun _ _ _ _ => rfl⟩
        · unfold mkPage at h
          rw [if_neg hps0] at h
          obtain rfl : _ = res := Option.some_inj.mp h
          refine ⟨rfl, rfl, fdiv_ceil _ _ hps, happ, hconc, ?_⟩
          intro cq e hcq' hdb'
          rw [hcq2] at hcq'
          obtain rfl : cquery = cq := Option.some_inj.mp hcq'
          rw [hdb'] at hdc2
          simp at hdc2
        · simp at h

theorem c3_execute_paginated_witness :
    executeCypherPaginated envPage "MATCH (n) RETURN n" 10 3 = some pageRes ∧
    pageRes.totalPages = ⌈(pageRes.totalCount : ℚ) / ((10 : Int) : ℚ)⌉ ∧
    pageRes.results.length = 5 :=
  ⟨by decide,
   (c3_execute_paginated envPage "MATCH (n) RETURN n" 10 3 pageRes
      (by decide) (by decide)).2.2.1,
   by decide⟩

/-- Case analysis of the orchestrator's cache-miss path: generation failure
or the full pipeline. -/
theorem query_miss_spec (env : Env) (cache : Cache) (useCache : Bool)
    (question : String)
    (hq : pyStrip question ≠ "")
    (hmiss : useCache = false ∨ cache.lookup (pyStrip question) = none) :
    ((((generateCypher env (pyStrip question)).1 = none ∨
        (generateCypher env (pyStrip question)).1 = some "") ∧
      query env cache useCache question =
        ({ error := some "Failed to generate Cypher query" }, cache,
          (generateCypher env (pyStrip question)).2)) ∨
     (∃ cq, (generateCypher env (pyStrip question)).1 = some cq ∧ cq ≠ "" ∧
      query env cache useCache question =
        ({ question := some (pyStrip question), cypherQuery := some cq,
           queryResults := some (executeQueryStep env cq).1,
           answer := some (generateAnswer env (pyStrip question) cq
             (executeQueryStep env cq).1).1,
           validation := some (validateCypher env cq).1, error := none },
         (if useCache then
            cacheInsert (pyStrip question)
              { question := some (pyStrip question), cypherQuery := some cq,
                queryResults := some (executeQueryStep env cq).1,
                answer := some (generateAnswer env (pyStrip question) cq
                  (executeQueryStep env cq).1).1,
                validation := some (validateCypher env cq).1, error := none }
              cache
          else cache),
         (((generateCypher env (pyStrip question)).2.add
             (validateCypher env cq).2).add
             (executeQueryStep env cq).2).add
             (generateAnswer env (pyStrip question) cq
               (executeQueryStep env cq).1).2))) := by
  rcases hG : generateCypher env (pyStrip question) with ⟨gen, c1⟩
  rcases gen with _ | cq
  · refine Or.inl ⟨Or.inl rfl, ?_⟩
    rcases hmiss with hmiss | hmiss
    · subst hmiss; simp [query, hq, hG]
    · cases useCache <;> simp [query, hq, hmiss, hG]
  · by_cases hcq : cq = ""
    · subst hcq
      refine Or.inl ⟨Or.inr rfl, ?_⟩
      rcases hmiss with hmiss | hmiss
      · subst hmiss; simp [query, hq, hG]
      · cases useCache <;> simp [query, hq, hmiss, hG]
    · refine Or.inr ⟨cq, rfl, hcq, ?_⟩
      rcases hmiss with hmiss | hmiss
      · subst hmiss; simp [query, hq, hG, hcq]
      · cases useCache <;> simp [query, hq, hmiss, hG, hcq]

/-- Case analysis of the orchestrator: empty question, cache hit, generation
failure, or the full pipeline. -/
theorem query_spec (env : Env) (cache : Cache) (useCache : Bool) (question : String) :
    (pyStrip question = "" ∧
      query env cache useCache question =
        ({ error := some "Empty question provided" }, cache, ⟨0, 0, 0⟩)) ∨
    (pyStrip question ≠ "" ∧ useCache = true ∧
      ∃ o, cache.lookup (pyStrip question) = some o ∧
        query env cache useCache question = (o, cache, ⟨0, 0, 0⟩)) ∨
    (pyStrip question ≠ "" ∧
      (useCache = false ∨ cache.lookup (pyStrip question) = none) ∧
      ((((generateCypher env (pyStrip question)).1 = none ∨
          (generateCypher env (pyStrip question)).1 = some "") ∧
        query env cache useCache question =
          ({ error := some "Failed to generate Cypher query" }, cache,
            (generateCypher env (pyStrip question)).2)) ∨
       (∃ cq, (generateCypher env (pyStrip question)).1 = some cq ∧ cq ≠ "" ∧
        query env cache useCache question =
          ({ question := some (pyStrip question), cypherQuery := some cq,
             queryResults := some (executeQueryStep env cq).1,
             answer := some (generateAnswer env (pyStrip question) cq
               (executeQueryStep env cq).1).1,
             validation := some (validateCypher env cq).1, error := none },
           (if useCache then
              cacheInsert (pyStrip question)
                { question := some (pyStrip question), cypherQuery := some cq,
                  queryResults := some (executeQueryStep env cq).1,
                  answer := some (generateAnswer env (pyStrip question) cq
                    (executeQueryStep env cq).1).1,
                  validation := some (validateCypher env cq).1, error := none }
                cache
            else cache),
           (((generateCypher env (pyStrip question)).2.add
               (validateCypher env cq).2).add
               (executeQueryStep env cq).2).add
               (generateAnswer env (pyStrip question) cq
                 (executeQueryStep env cq).1).2)))) := by
  by_cases hq : pyStrip question = ""
  · exact Or.inl ⟨hq, by simp [query, hq]⟩
  · right
    cases useCache
    · exact Or.inr ⟨hq, Or.inl rfl,
        query_miss_spec env cache false question hq (Or.inl rfl)⟩
    · rcases hL : cache.lookup (pyStrip question) with _ | o
      · exact Or.inr ⟨hq, Or.inr rfl,
          query_miss_spec env cache true question hq (Or.inr hL)⟩
      · exact Or.inl ⟨hq, rfl, o, rfl, by simp [query, hq, hL]⟩

/-- C5: the orchestrator is total — every call yields a well-formed outcome
object; an empty or whitespace-only question yields the error outcome with
no model or database call and an unchanged cache.  (All collaborator
exceptions are caught inside the steps, so the final catch-all conversion
to `Error processing query: <detail>` is unreachable in the source.) -/
theorem c5_query_always_outcome (env : Env) (cache : Cache) (useCache : Bool)
    (question : String)
    (hc : ∀ k o, cache.lookup k = some o → WellFormedOutcome o) :
    WellFormedOutcome (query env cache useCache question).1 ∧
    (pyStrip question = "" →
      query env cache useCache question =
        ({ error := some "Empty question provided" }, cache, ⟨0, 0, 0⟩)) := by
  rcases query_spec env cache useCache question with
    ⟨hq, he⟩ | ⟨hq, huc, o, hL, he⟩ | ⟨hq, hmiss, ⟨hgen, he⟩ | ⟨cq, hcq, hne, he⟩⟩
  · exact ⟨by rw [he]; left; simp, fun _ => he⟩
  · exact ⟨by rw [he]; exact hc _ _ hL, fun h => absurd h hq⟩
  · exact ⟨by rw [he]; left; simp, fun h => absurd h hq⟩
  · refine ⟨?_, fun h => absurd h hq⟩
    rw [he]
    right
    simp [WellFormedOutcome]

theorem c5_query_always_outcome_witness :
    WellFormedOutcome (query envDown [] true "   ").1 ∧
    query envDown [] true "   " =
      ({ error := some "Empty question provided" }, [], ⟨0, 0, 0⟩) := by
  have h := c5_query_always_outcome envDown [] true "   "
    (by intro k o hko; simp [List.lookup] at hko)
  exact ⟨h.1, h.2 (by decide)⟩

/-- C6: a cache hit returns the cached outcome unchanged with zero
collaborator calls; after `clear_cache` the same question misses and the
pipeline runs again (the schema is consulted, and when it is available the
generation model is invoked). -/
theorem c6_cache_hit_and_clear (env : Env) (cache : Cache) (question : String)
    (o : Outcome)
    (hq : pyStrip question ≠ "")
    (hl : cache.lookup (pyStrip question) = some o) :
    query env cache true question = (o, cache, ⟨0, 0, 0⟩) ∧
    1 ≤ (query env (clearCache cache) true question).2.2.schema ∧
    (∀ s, env.schema = .ok s →
      1 ≤ (query env (clearCache cache) true question).2.2.llm) := by
  refine ⟨by simp [query, hq, hl], ?_, ?_⟩
  · rcases query_spec env (clearCache cache) true question with
      ⟨hq', _⟩ | ⟨_, _, o', hL', _⟩ | ⟨_, _, ⟨_, he⟩ | ⟨cq, _, _, he⟩⟩
    · exact absurd hq' hq
    · simp [clearCache, List.lookup] at hL'
    · rw [he]
      exact generateCypher_schema_calls env (pyStrip question)
    · rw [he]
      have h1 := generateCypher_schema_calls env (pyStrip question)
      simp only [Calls.add]
      omega
  · intro s hs
    rcases query_spec env (clearCache cache) true question with
      ⟨hq', _⟩ | ⟨_, _, o', hL', _⟩ | ⟨_, _, ⟨_, he⟩ | ⟨cq, _, _, he⟩⟩
    · exact absurd hq' hq
    · simp [clearCache, List.lookup] at hL'
    · rw [he]
      exact generateCypher_llm_calls env (pyStrip question) s hs
    · rw [he]
      have h1 := generateCypher_llm_calls env (pyStrip question) s hs
      simp only [Calls.add]
      omega

theorem c6_cache_hit_and_clear_witness :
    query envOk [("hi", oHit)] true "hi" = (oHit, [("hi", oHit)], ⟨0, 0, 0⟩) ∧
    1 ≤ (query envOk (clearCache [("hi", oHit)]) true "hi").2.2.schema ∧
    (query envOk (clearCache [("hi", oHit)]) true "hi").2.2 = ⟨1, 1, 2⟩ := by
  have h := c6_cache_hit_and_clear envOk [("hi", oHit)] "hi" oHit
    (by decide) (by rfl)
  exact ⟨h.1, h.2.1, by decide⟩

/-- C8: every outcome with no error key carries a non-empty generated query,
an answer, and a present (possibly empty) result sequence; the property is
preserved for every outcome stored in the cache.  Execution failures and
blank queries yield the empty sequence, never a missing field. -/
theorem c8_success_outcome_fields (env : Env) (cache : Cache) (useCache : Bool)
    (question : String)
    (hc : ∀ k o, cache.lookup k = some o → SuccessShape o) :
    SuccessShape (query env cache useCache question).1 ∧
    (∀ k o, (query env cache useCache question).2.1.lookup k = some o →
      SuccessShape o) ∧
    (∀ cq e, pyStrip cq ≠ "" → env.db (addLimit env.maxResults cq) = .error e →
      executeQueryStep env cq = ([], ⟨0, 0, 1⟩)) ∧
    (∀ cq, pyStrip cq = "" → executeQueryStep env cq = ([], ⟨0, 0, 0⟩)) := by
  have hexecFail : ∀ cq e, pyStrip cq ≠ "" →
      env.db (addLimit env.maxResults cq) = .error e →
      executeQueryStep env cq = ([], ⟨0, 0, 1⟩) := by
    intro cq e hne hdb
    simp [executeQueryStep, executeCypher, dbRun, hne, hdb]
  have hexecBlank : ∀ cq, pyStrip cq = "" →
      executeQueryStep env cq = ([], ⟨0, 0, 0⟩) := by
    intro cq hb
    simp [executeQueryStep, executeCypher, hb]
  rcases query_spec env cache useCache question with
    ⟨hq, he⟩ | ⟨hq, huc, o, hL, he⟩ | ⟨hq, hmiss, ⟨hgen, he⟩ | ⟨cq, hcq, hne, he⟩⟩
  · refine ⟨?_, ?_, hexecFail, hexecBlank⟩
    · rw [he]; intro hE; simp at hE
    · rw [he]; exact hc
  · refine ⟨?_, ?_, hexecFail, hexecBlank⟩
    · rw [he]; exact hc _ _ hL
    · rw [he]; exact hc
  · refine ⟨?_, ?_, hexecFail, hexecBlank⟩
    · rw [he]; intro hE; simp at hE
    · rw [he]; exact hc
  · refine ⟨?_, ?_, hexecFail, hexecBlank⟩
    · rw [he]
      intro _
      exact ⟨⟨cq, rfl, hne⟩, ⟨_, rfl⟩, ⟨_, rfl⟩⟩
    · rw [he]
      intro k o'
      cases useCache with
      | false =>
        simp only [if_false, Bool.false_eq_true]
        exact hc k o'
      | true =>
        simp only [if_true]
        rw [cacheInsert_lookup]
        by_cases hk : k = pyStrip question
        · rw [if_pos hk]
          intro ho'
          obtain rfl : _ = o' := Option.some_inj.mp ho'
          intro _
          exact ⟨⟨cq, rfl, hne⟩, ⟨_, rfl⟩, ⟨_, rfl⟩⟩
        · rw [if_neg hk]
          exact hc k o'

theorem c8_success_outcome_fields_witness :
    SuccessShape (query envOk [] true "hi").1 :=
  (c8_success_outcome_fields envOk [] true "hi"
    (by intro k o hko; simp [List.lookup] at hko)).1

/-- C10: an error outcome leaves the cache unchanged, and (for caches that
only hold the error-free outcomes the pipeline stores) an error with
caching enabled implies the question was not a cache key, so repeating it
re-runs the pipeline. -/
theorem c10_error_leaves_cache (env : Env) (cache : Cache) (useCache : Bool)
    (question : String)
    (he : (query env cache useCache question).1.error.isSome = true) :
    (query env cache useCache question).2.1 = cache ∧
    (useCache = true → pyStrip question ≠ "" → CacheErrorFree cache →
      cache.lookup (pyStrip question) = none) := by
  rcases query_spec env cache useCache question with
    ⟨hq, heq⟩ | ⟨hq, huc, o, hL, heq⟩ | ⟨hq, hmiss, ⟨hgen, heq⟩ | ⟨cq, hcq, hne, heq⟩⟩
  · exact ⟨by rw [heq], fun _ hne _ => absurd hq hne⟩
  · rw [heq] at he
    refine ⟨by rw [heq], ?_⟩
    intro _ _ hcf
    have hnone := hcf _ _ hL
    rw [hnone] at he
    simp at he
  · refine ⟨by rw [heq], ?_⟩
    intro huc _ _
    rcases hmiss with hmiss | hmiss
    · rw [huc] at hmiss; exact absurd hmiss (by simp)
    · exact hmiss
  · rw [heq] at he
    simp at he

theorem c10_error_leaves_cache_witness :
    (query envDown [] true "hi").2.1 = ([] : Cache) ∧
    ([] : Cache).lookup (pyStrip "hi") = none := by
  have h := c10_error_leaves_cache envDown [] true "hi" (by decide)
  exact ⟨h.1, h.2 rfl (by decide) (by intro k o hko; simp [List.lookup] at hko)⟩

end CollibraPipeline
